import Mathlib

/-!
Verification of `prometheus_client/values.py` — the metric value storage
backend: the single-process `MutexValue`, the multi-process `MmapedValue`
produced by `MultiProcessValue`, and the backend selector `get_value_class`.

Numeric values are modelled as exact rationals (`Rat`); the source uses
Python floats, and the spec explicitly sets floating-point associativity
aside.  The external collaborators (`mmap_dict.mmap_key`, `MmapedDict`, and
`samples.Exemplar`) are not part of the provided sources and are modelled
from the spec where noted.
-/

set_option autoImplicit false

/-- Association-list update with Python-dict semantics: replace the value at
the first occurrence of the key, or append the binding if the key is absent. -/
def alistSet {α : Type} : List (String × α) → String → α → List (String × α)
  | [], k, v => [(k, v)]
  | (k', v') :: rest, k, v =>
      if k' = k then (k, v) :: rest else (k', v') :: alistSet rest k v

/-- Association-list lookup: value at the first occurrence of the key. -/
def alookup {α : Type} : List (String × α) → String → Option α
  | [], _ => none
  | (k', v) :: rest, k => if k' = k then some v else alookup rest k

@[simp]
theorem alookup_nil {α : Type} (k : String) : alookup ([] : List (String × α)) k = none := rfl

@[simp]
theorem alookup_cons {α : Type} (k' : String) (v : α) (rest : List (String × α)) (k : String) :
    alookup ((k', v) :: rest) k = if k' = k then some v else alookup rest k := rfl

theorem alookup_append {α : Type} (l l₂ : List (String × α)) (k : String) :
    alookup (l ++ l₂) k = (alookup l k).or (alookup l₂ k) := by
  induction l with
  | nil => simp
  | cons hd tl ih =>
      obtain ⟨k', v⟩ := hd
      by_cases h : k' = k <;> simp [h, ih]

theorem alookup_alistSet_self {α : Type} (l : List (String × α)) (k : String) (v : α) :
    alookup (alistSet l k v) k = some v := by
  induction l with
  | nil => simp [alistSet]
  | cons hd tl ih =>
      obtain ⟨k', v'⟩ := hd
      by_cases h : k' = k <;> simp [alistSet, h, ih]

theorem alookup_alistSet_ne {α : Type} (l : List (String × α)) (k k' : String) (v : α)
    (h : k' ≠ k) : alookup (alistSet l k v) k' = alookup l k' := by
  have hk : k ≠ k' := fun hkk => h hkk.symm
  induction l with
  | nil => simp [alistSet, hk]
  | cons hd tl ih =>
      obtain ⟨k₀, v₀⟩ := hd
      by_cases h0 : k₀ = k
      · subst h0
        simp [alistSet, hk]
      · simp only [alistSet, if_neg h0]
        by_cases h1 : k₀ = k' <;> simp [h1, ih]

theorem alookup_mem {α : Type} {l : List (String × α)} {k : String} {v : α}
    (h : alookup l k = some v) : (k, v) ∈ l := by
  induction l with
  | nil => simp at h
  | cons hd tl ih =>
      obtain ⟨k', v'⟩ := hd
      by_cases hk : k' = k
      · subst hk
        simp at h
        simp [h]
      · simp [hk] at h
        exact List.mem_cons_of_mem _ (ih h)

/-! ### The backing store (external collaborator) -/

/-- Modelled from the spec: `MmapedDict` lives in `mmap_dict.py`, which is not
among the provided sources.  The spec's backing-store contract (§6) is:
`open(path) -> store`, `read(key) -> float` returning `0.0` for an unseen key,
`write(key, float)`, `close()`.  A store is a file name plus its key/value
content; opening creates a store with no entries. -/
structure MmapedDict where
  filename : String
  data : List (String × Rat)
deriving DecidableEq

def MmapedDict.openNew (filename : String) : MmapedDict :=
  { filename := filename, data := [] }

def MmapedDict.read_value (d : MmapedDict) (k : String) : Rat :=
  match alookup d.data k with
  | some v => v
  | none => 0

def MmapedDict.write_value (d : MmapedDict) (k : String) (v : Rat) : MmapedDict :=
  { d with data := alistSet d.data k v }

@[simp]
theorem read_value_write_value_self (d : MmapedDict) (k : String) (v : Rat) :
    (d.write_value k v).read_value k = v := by
  simp [MmapedDict.read_value, MmapedDict.write_value, alookup_alistSet_self]

theorem read_value_write_value_ne (d : MmapedDict) (k k' : String) (v : Rat) (h : k' ≠ k) :
    (d.write_value k v).read_value k' = d.read_value k' := by
  simp [MmapedDict.read_value, MmapedDict.write_value, alookup_alistSet_ne _ _ _ _ h]

@[simp]
theorem read_value_openNew (filename k : String) :
    (MmapedDict.openNew filename).read_value k = 0 := rfl

/-- Modelled from the spec: the storage key function `mmap_key` lives in
`mmap_dict.py`, which is not among the provided sources.  The spec requires
only that the key is derived deterministically from
`(metric_name, sample_name, label_names, label_values)` (§6). -/
def mmap_key (metric_name : String) (name : String)
    (labelnames labelvalues : List String) : String :=
  String.intercalate "," (metric_name :: name :: (labelnames ++ labelvalues))

/-- Modelled from the spec: `Exemplar` (from `samples.py`, not among the
provided sources) is an opaque immutable record; this component never
interprets its fields. -/
structure Exemplar where
  labels : List (String × String)
  value : Rat
deriving DecidableEq

/-! ### MutexValue — the single-process backend -/

/-- `MutexValue`: a float protected by a mutex.  The lock serializes the
operations, so the sequential state below is the per-instance state; any
thread interleaving is some sequence of these atomic steps. -/
structure MutexValue where
  value : Rat
  exemplar : Option Exemplar
deriving DecidableEq

/-- `MutexValue.__init__`: `self._value = 0.0`, `self._exemplar = None`. -/
def MutexValue.init : MutexValue :=
  { value := 0, exemplar := none }

def MutexValue.inc (m : MutexValue) (amount : Rat) : MutexValue :=
  { m with value := m.value + amount }

def MutexValue.set (m : MutexValue) (v : Rat) : MutexValue :=
  { m with value := v }

def MutexValue.set_exemplar (m : MutexValue) (e : Exemplar) : MutexValue :=
  { m with exemplar := some e }

def MutexValue.get (m : MutexValue) : Rat :=
  m.value

def MutexValue.get_exemplar (m : MutexValue) : Option Exemplar :=
  m.exemplar

theorem MutexValue.foldl_inc_value (l : List Rat) (m : MutexValue) :
    (l.foldl MutexValue.inc m).value = m.value + l.sum := by
  induction l generalizing m with
  | nil => simp
  | cons a tl ih => simp [MutexValue.inc, ih, add_assoc]

/-! ### The backend selector -/

/-- The two concrete `Value` classes `get_value_class` can return. -/
inductive BackendKind
  | mutexValue
  | mmapedValue
deriving DecidableEq

/-- `get_value_class`: multi-process mode is chosen iff the directory setting
is present in the environment under the legacy name `prometheus_multiproc_dir`
or the current name `PROMETHEUS_MULTIPROC_DIR`.  The environment is modelled
as an association list. -/
def get_value_class (env : List (String × String)) : BackendKind :=
  if (alookup env "prometheus_multiproc_dir").isSome
      || (alookup env "PROMETHEUS_MULTIPROC_DIR").isSome then
    BackendKind.mmapedValue
  else
    BackendKind.mutexValue

/-! ### MmapedValue — the multi-process backend

`MultiProcessValue(process_identifier)` closes a class over four pieces of
process-wide shared state: `files` (file_prefix → open store), `values` (every
instance ever constructed), `pid` (the cached process identity) and one shared
lock.  The lock serializes every operation, so the sequential functions below
are the atomic steps.  The impure `process_identifier()` probe is modelled by
passing each operation the probe's current result (`actual`), and the
`PROMETHEUS_MULTIPROC_DIR` directory read inside `__reset` is passed as `dir`.
An instance's `self._file` is a reference to the store registered under its
file prefix; it is modelled by the prefix string, writes going through the
registry. -/

/-- The identity tuple handed to `MmapedValue.__init__` and kept as
`self._params`. -/
structure Params where
  typ : String
  metric_name : String
  name : String
  labelnames : List String
  labelvalues : List String
  multiprocess_mode : String
deriving DecidableEq, Inhabited

/-- The `file_prefix` computed in `MmapedValue.__reset`: `typ + '_' +
multiprocess_mode` for gauges, `typ` otherwise. -/
def filePrefixOf (p : Params) : String :=
  if p.typ = "gauge" then p.typ ++ "_" ++ p.multiprocess_mode else p.typ

/-- `os.path.join(dir, '{fp}_{pid}.db')` — the backing file name used when
`__reset` opens a store. -/
def mkFilename (dir : String) (fp : String) (pid : Int) : String :=
  dir ++ "/" ++ fp ++ "_" ++ toString pid ++ ".db"

/-- One `MmapedValue` instance: its identity tuple (`self._params`), its store
handle (`self._file`, modelled by the file prefix it is registered under), its
storage key (`self._key`) and its cached float (`self._value`). -/
structure Inst where
  params : Params
  file : String
  key : String
  value : Rat
deriving DecidableEq, Inhabited

/-- The process-wide state closed over by `MultiProcessValue`: the
`file_prefix → store` mapping, the instance registry, and the cached process
identity `pid['value']`. -/
structure MPState where
  files : List (String × MmapedDict)
  values : List Inst
  pid : Int
deriving DecidableEq

/-- `MmapedValue.__reset`: compute the file prefix, lazily open the backing
file named with the cached identity if the prefix is unseen, derive the
storage key, and load the cached float from the store.  Returns the updated
mapping and the re-attached instance. -/
def resetInst (dir : String) (pid : Int) (files : List (String × MmapedDict))
    (p : Params) : List (String × MmapedDict) × Inst :=
  let fp := filePrefixOf p
  let files' :=
    match alookup files fp with
    | some _ => files
    | none => files ++ [(fp, MmapedDict.openNew (mkFilename dir fp pid))]
  let key := mmap_key p.metric_name p.name p.labelnames p.labelvalues
  let v :=
    match alookup files' fp with
    | some d => d.read_value key
    | none => 0
  (files', { params := p, file := fp, key := key, value := v })

/-- One iteration of the `for value in values: value.__reset()` loop in
`__check_for_pid_change`, rebuilding the registry in order. -/
def resyncStep (dir : String) (acc : MPState) (inst : Inst) : MPState :=
  let r := resetInst dir acc.pid acc.files inst.params
  { acc with files := r.1, values := acc.values ++ [r.2] }

/-- `MmapedValue.__check_for_pid_change`: probe the identity function; on a
mismatch update the cached identity, close every open store and clear the
mapping, then re-attach every registered instance in order (each `__reset`
runs against the already-updated identity). -/
def checkForPidChange (dir : String) (actual : Int) (s : MPState) : MPState :=
  if s.pid ≠ actual then
    s.values.foldl (resyncStep dir) { files := [], values := [], pid := actual }
  else s

/-- Write through an instance's store handle: update the store registered
under the instance's file prefix, leaving every other entry untouched. -/
def writeThrough (files : List (String × MmapedDict)) (fp k : String) (v : Rat) :
    List (String × MmapedDict) :=
  files.map fun e => if e.1 = fp then (e.1, e.2.write_value k v) else e

/-- Read the store registered under a prefix at a key (`0` when no store is
registered; a registered store returns `0` for an unseen key). -/
def readStore (files : List (String × MmapedDict)) (fp k : String) : Rat :=
  match alookup files fp with
  | some d => d.read_value k
  | none => 0

/-- The body of `MmapedValue.__init__` under the lock: identity-change check,
`__reset`, then `values.append(self)`.  The new instance's index is the length
of the registry before the append. -/
def MmapedValue.init (dir : String) (actual : Int) (p : Params) (s : MPState) : MPState :=
  let s1 := checkForPidChange dir actual s
  let r := resetInst dir s1.pid s1.files p
  { s1 with files := r.1, values := s1.values ++ [r.2] }

/-- `MmapedValue.inc` on the instance at index `i`: identity-change check,
`self._value += amount`, then `self._file.write_value(self._key, self._value)`. -/
def MmapedValue.inc (dir : String) (actual : Int) (i : Nat) (amount : Rat)
    (s : MPState) : MPState :=
  let s1 := checkForPidChange dir actual s
  match s1.values[i]? with
  | none => s1
  | some inst =>
      let inst' := { inst with value := inst.value + amount }
      { s1 with
          values := s1.values.set i inst',
          files := writeThrough s1.files inst'.file inst'.key inst'.value }

/-- `MmapedValue.set` on the instance at index `i`: identity-change check,
`self._value = value`, then `self._file.write_value(self._key, self._value)`. -/
def MmapedValue.set (dir : String) (actual : Int) (i : Nat) (v : Rat)
    (s : MPState) : MPState :=
  let s1 := checkForPidChange dir actual s
  match s1.values[i]? with
  | none => s1
  | some inst =>
      let inst' := { inst with value := v }
      { s1 with
          values := s1.values.set i inst',
          files := writeThrough s1.files inst'.file inst'.key inst'.value }

/-- `MmapedValue.get` on the instance at index `i`: identity-change check,
then return the cached `self._value`.  Returns the read value together with
the (possibly resynchronized) state. -/
def MmapedValue.get (dir : String) (actual : Int) (i : Nat) (s : MPState) :
    Rat × MPState :=
  let s1 := checkForPidChange dir actual s
  (match s1.values[i]? with
   | some inst => inst.value
   | none => 0, s1)

/-- `MmapedValue.set_exemplar`: a bare `return` — no state is touched. -/
def MmapedValue.set_exemplar (s : MPState) (i : Nat) (e : Exemplar) : MPState :=
  s

/-- `MmapedValue.get_exemplar`: `return None`. -/
def MmapedValue.get_exemplar (s : MPState) (i : Nat) : Option Exemplar :=
  none

/-- Modelled from the spec (§7): backing-store I/O failures propagate as
exceptions.  This is the factory state at the moment a failing
`write_value` raises inside `inc`: the identity check has run and
`self._value += amount` has happened, but the store write has not. -/
def MmapedValue.incStoreWriteFails (dir : String) (actual : Int) (i : Nat)
    (amount : Rat) (s : MPState) : MPState :=
  let s1 := checkForPidChange dir actual s
  match s1.values[i]? with
  | none => s1
  | some inst =>
      { s1 with values := s1.values.set i { inst with value := inst.value + amount } }

/-- Modelled from the spec (§7): the factory state at the moment a failing
`write_value` raises inside `set`: the identity check has run and
`self._value = value` has happened, but the store write has not. -/
def MmapedValue.setStoreWriteFails (dir : String) (actual : Int) (i : Nat)
    (v : Rat) (s : MPState) : MPState :=
  let s1 := checkForPidChange dir actual s
  match s1.values[i]? with
  | none => s1
  | some inst =>
      { s1 with values := s1.values.set i { inst with value := v } }

/-! ### The deprecation shim in `MmapedValue.__init__` -/

/-- Environment plus the number of deprecation warnings emitted so far. -/
structure EnvState where
  env : List (String × String)
  warnCount : Nat
deriving DecidableEq

/-- The compatibility shim at the top of `MmapedValue.__init__`: when the
legacy `prometheus_multiproc_dir` is set and the current
`PROMETHEUS_MULTIPROC_DIR` is not, copy the legacy value into the current name
and emit a `DeprecationWarning`. -/
def deprecationCheck (es : EnvState) : EnvState :=
  match alookup es.env "prometheus_multiproc_dir",
        alookup es.env "PROMETHEUS_MULTIPROC_DIR" with
  | some v, none =>
      { env := alistSet es.env "PROMETHEUS_MULTIPROC_DIR" v,
        warnCount := es.warnCount + 1 }
  | _, _ => es

/-! ### Helper lemmas about the identity-change protocol -/

theorem checkForPidChange_eq_self (dir : String) (actual : Int) (s : MPState)
    (h : s.pid = actual) : checkForPidChange dir actual s = s := by
  simp [checkForPidChange, h]

theorem foldl_resyncStep_pid (dir : String) (insts : List Inst) (acc : MPState) :
    (insts.foldl (resyncStep dir) acc).pid = acc.pid := by
  induction insts generalizing acc with
  | nil => rfl
  | cons hd tl ih => rw [List.foldl_cons, ih]; rfl

theorem checkForPidChange_pid (dir : String) (actual : Int) (s : MPState) :
    (checkForPidChange dir actual s).pid = actual := by
  by_cases h : s.pid = actual
  · simpa [checkForPidChange, h] using h
  · simp [checkForPidChange, h, foldl_resyncStep_pid]

theorem checkForPidChange_idem (dir : String) (actual : Int) (s : MPState) :
    checkForPidChange dir actual (checkForPidChange dir actual s)
      = checkForPidChange dir actual s :=
  checkForPidChange_eq_self _ _ _ (checkForPidChange_pid dir actual s)

theorem alookup_resetInst_self (dir : String) (pid : Int)
    (files : List (String × MmapedDict)) (p : Params) :
    alookup (resetInst dir pid files p).1 (filePrefixOf p)
      = (alookup files (filePrefixOf p)).or
          (some (MmapedDict.openNew (mkFilename dir (filePrefixOf p) pid))) := by
  cases h : alookup files (filePrefixOf p) with
  | some d => simp [resetInst, h]
  | none => simp [resetInst, h, alookup_append]

theorem alookup_resetInst_preserve (dir : String) (pid : Int)
    (files : List (String × MmapedDict)) (p : Params) (fp : String) (d : MmapedDict)
    (h : alookup files fp = some d) :
    alookup (resetInst dir pid files p).1 fp = some d := by
  cases h0 : alookup files (filePrefixOf p) with
  | some d0 => simpa [resetInst, h0] using h
  | none => simp [resetInst, h0, alookup_append, h]

theorem alookup_resetInst_ne (dir : String) (pid : Int)
    (files : List (String × MmapedDict)) (p : Params) (fp : String)
    (h : fp ≠ filePrefixOf p) :
    alookup (resetInst dir pid files p).1 fp = alookup files fp := by
  cases h0 : alookup files (filePrefixOf p) with
  | some d0 => simp [resetInst, h0]
  | none => simp [resetInst, h0, alookup_append, Ne.symm h]

theorem resetInst_mem_files (dir : String) (pid : Int)
    (files : List (String × MmapedDict)) (p : Params) (e : String × MmapedDict)
    (h : e ∈ (resetInst dir pid files p).1) :
    e ∈ files ∨ e = (filePrefixOf p, MmapedDict.openNew (mkFilename dir (filePrefixOf p) pid)) := by
  cases h0 : alookup files (filePrefixOf p) with
  | some d0 =>
      rw [resetInst] at h
      simp only [h0] at h
      exact Or.inl h
  | none =>
      rw [resetInst] at h
      simp only [h0] at h
      rcases List.mem_append.mp h with h1 | h1
      · exact Or.inl h1
      · simp at h1
        exact Or.inr h1

theorem resetInst_snd (dir : String) (pid : Int)
    (files : List (String × MmapedDict)) (p : Params) :
    (resetInst dir pid files p).2 =
      { params := p, file := filePrefixOf p,
        key := mmap_key p.metric_name p.name p.labelnames p.labelvalues,
        value := readStore (resetInst dir pid files p).1 (filePrefixOf p)
                   (mmap_key p.metric_name p.name p.labelnames p.labelvalues) } := by
  cases h0 : alookup files (filePrefixOf p) with
  | some d0 => simp [resetInst, readStore, h0]
  | none => simp [resetInst, readStore, h0]

/-- The re-attachment invariant: an instance's handle and key are the ones its
identity tuple derives, its handle is registered, and its cached float agrees
with the store it is attached to. -/
def attached (files : List (String × MmapedDict)) (v : Inst) : Prop :=
  v.file = filePrefixOf v.params ∧
  v.key = mmap_key v.params.metric_name v.params.name v.params.labelnames v.params.labelvalues ∧
  (alookup files v.file).isSome = true ∧
  v.value = readStore files v.file v.key

theorem attached_resetInst_self (dir : String) (pid : Int)
    (files : List (String × MmapedDict)) (p : Params) :
    attached (resetInst dir pid files p).1 (resetInst dir pid files p).2 := by
  rw [attached, resetInst_snd]
  refine ⟨rfl, rfl, ?_, rfl⟩
  rw [alookup_resetInst_self]
  cases alookup files (filePrefixOf p) <;> simp

theorem attached_resetInst_preserve (dir : String) (pid : Int)
    (files : List (String × MmapedDict)) (p : Params) (v : Inst)
    (h : attached files v) : attached (resetInst dir pid files p).1 v := by
  obtain ⟨h1, h2, h3, h4⟩ := h
  obtain ⟨d, hd⟩ := Option.isSome_iff_exists.mp h3
  have hd' := alookup_resetInst_preserve dir pid files p v.file d hd
  refine ⟨h1, h2, by simp [hd'], ?_⟩
  rw [h4, readStore, readStore, hd, hd']

theorem alookup_writeThrough_self (files : List (String × MmapedDict)) (fp k : String) (v : Rat) :
    alookup (writeThrough files fp k v) fp
      = (alookup files fp).map (fun d => d.write_value k v) := by
  induction files with
  | nil => simp [writeThrough]
  | cons hd tl ih =>
      obtain ⟨k0, d0⟩ := hd
      simp only [writeThrough, List.map_cons] at ih ⊢
      by_cases h : k0 = fp
      · subst h
        simp
      · simp [h, ih]

theorem alookup_writeThrough_ne (files : List (String × MmapedDict)) (fp fp' k : String) (v : Rat)
    (h : fp' ≠ fp) :
    alookup (writeThrough files fp k v) fp' = alookup files fp' := by
  induction files with
  | nil => simp [writeThrough]
  | cons hd tl ih =>
      obtain ⟨k0, d0⟩ := hd
      simp only [writeThrough, List.map_cons] at ih ⊢
      by_cases h0 : k0 = fp
      · subst h0
        have hne : ¬ k0 = fp' := fun hh => h hh.symm
        simp [hne, ih]
      · by_cases h1 : k0 = fp' <;> simp [h0, h1, h, ih]

theorem getElem?_append_pair_left {α : Type} (l : List α) (x y : α) :
    (l ++ [x, y])[l.length]? = some x := by
  rw [List.getElem?_append_right (le_refl _)]
  simp

theorem getElem?_append_pair_right {α : Type} (l : List α) (x y : α) :
    (l ++ [x, y])[l.length + 1]? = some y := by
  rw [List.getElem?_append_right (by omega)]
  simp

theorem getElem_append_pair_left {α : Type} (l : List α) (x y : α) :
    (l ++ [x, y])[l.length] = x := by
  have h := getElem?_append_pair_left l x y
  rw [List.getElem?_eq_getElem (by simp)] at h
  exact Option.some.inj h

theorem getElem_append_pair_right {α : Type} (l : List α) (x y : α) :
    (l ++ [x, y])[l.length + 1] = y := by
  have h := getElem?_append_pair_right l x y
  rw [List.getElem?_eq_getElem (by simp)] at h
  exact Option.some.inj h

theorem MmapedValue.init_unfold (dir : String) (pid : Int) (p : Params) (s : MPState)
    (hpid : s.pid = pid) :
    MmapedValue.init dir pid p s =
      { files := (resetInst dir pid s.files p).1,
        values := s.values ++ [(resetInst dir pid s.files p).2],
        pid := pid } := by
  obtain ⟨F, V, q⟩ := s
  cases hpid
  rw [MmapedValue.init, checkForPidChange_eq_self _ _ _ rfl]

theorem MmapedValue.inc_unfold (dir : String) (pid : Int) (i : Nat) (a : Rat) (s : MPState)
    (hpid : s.pid = pid) (inst : Inst) (hi : s.values[i]? = some inst) :
    MmapedValue.inc dir pid i a s =
      { s with
          values := s.values.set i { inst with value := inst.value + a },
          files := writeThrough s.files inst.file inst.key (inst.value + a) } := by
  rw [MmapedValue.inc, checkForPidChange_eq_self _ _ _ hpid, hi]

theorem MmapedValue.set_unfold (dir : String) (pid : Int) (i : Nat) (w : Rat) (s : MPState)
    (hpid : s.pid = pid) (inst : Inst) (hi : s.values[i]? = some inst) :
    MmapedValue.set dir pid i w s =
      { s with
          values := s.values.set i { inst with value := w },
          files := writeThrough s.files inst.file inst.key w } := by
  rw [MmapedValue.set, checkForPidChange_eq_self _ _ _ hpid, hi]

/-! ### Claim theorems -/

/-- C3: for every finite sequence of `inc(a1), ..., inc(an)` applied to a
freshly constructed `MutexValue` (initial value `0.0`), a subsequent `get()`
returns `a1 + ... + an` (amounts may be negative), regardless of thread
interleaving: the mutex serializes the increments, so any interleaving
executes them in some order, i.e. as some permutation of the sequence. -/
theorem C3_mutexValue_inc_sum (amounts order : List Rat) (h : order.Perm amounts) :
    (order.foldl MutexValue.inc MutexValue.init).get = amounts.sum := by
  rw [MutexValue.get, MutexValue.foldl_inc_value, MutexValue.init, h.sum_eq]
  simp

theorem C3_mutexValue_inc_sum_witness :
    ([(2 : Rat), 1]).Perm [1, 2] ∧
      (([(2 : Rat), 1]).foldl MutexValue.inc MutexValue.init).get = ([(1 : Rat), 2]).sum :=
  ⟨List.Perm.swap 1 2 [], C3_mutexValue_inc_sum [1, 2] [2, 1] (List.Perm.swap 1 2 [])⟩

/-- C6: `get_value_class` returns the multiprocess `MmapedValue` class exactly
when the directory configuration is present in the environment under the
legacy name `prometheus_multiproc_dir` or the current name
`PROMETHEUS_MULTIPROC_DIR`, and returns `MutexValue` exactly when neither is
present. -/
theorem C6_get_value_class_selector (env : List (String × String)) :
    (get_value_class env = BackendKind.mmapedValue ↔
      (alookup env "prometheus_multiproc_dir").isSome = true ∨
      (alookup env "PROMETHEUS_MULTIPROC_DIR").isSome = true) ∧
    (get_value_class env = BackendKind.mutexValue ↔
      alookup env "prometheus_multiproc_dir" = none ∧
      alookup env "PROMETHEUS_MULTIPROC_DIR" = none) := by
  rw [get_value_class]
  by_cases h1 : (alookup env "prometheus_multiproc_dir").isSome = true <;>
    by_cases h2 : (alookup env "PROMETHEUS_MULTIPROC_DIR").isSome = true <;>
    simp_all [Option.isSome_iff_ne_none]

/-- C7: in the multiprocess backend, `set_exemplar` is a silent no-op (no
state change, no error) and `get_exemplar` always returns `None`. -/
theorem C7_exemplars_unsupported (s : MPState) (i : Nat) (e : Exemplar) :
    MmapedValue.set_exemplar s i e = s ∧ MmapedValue.get_exemplar s i = none :=
  ⟨rfl, rfl⟩

/-- C8: when the configuration is supplied only under the legacy spelling, the
shim at the start of the first `MmapedValue.__init__` copies the legacy value
into the current name and warns; because the current name is set from then on,
running the shim any further number of times changes nothing, so exactly one
deprecation warning is ever emitted, and the selector (and every later
environment read of the current name) behaves as if the current name had been
set. -/
theorem C8_legacy_config_normalized (es : EnvState) (d : String) (n : Nat)
    (hleg : alookup es.env "prometheus_multiproc_dir" = some d)
    (hcur : alookup es.env "PROMETHEUS_MULTIPROC_DIR" = none) :
    alookup (deprecationCheck es).env "PROMETHEUS_MULTIPROC_DIR" = some d ∧
    (deprecationCheck es).warnCount = es.warnCount + 1 ∧
    deprecationCheck^[n + 1] es = deprecationCheck es ∧
    get_value_class (deprecationCheck es).env = BackendKind.mmapedValue := by
  have hstep : deprecationCheck es =
      { env := alistSet es.env "PROMETHEUS_MULTIPROC_DIR" d,
        warnCount := es.warnCount + 1 } := by
    rw [deprecationCheck, hleg, hcur]
  have hcur' : alookup (deprecationCheck es).env "PROMETHEUS_MULTIPROC_DIR" = some d := by
    rw [hstep]
    exact alookup_alistSet_self _ _ _
  have hfix : deprecationCheck (deprecationCheck es) = deprecationCheck es := by
    rw [deprecationCheck]
    cases h0 : alookup (deprecationCheck es).env "prometheus_multiproc_dir" <;>
      rw [hcur']
  refine ⟨hcur', by rw [hstep], ?_, ?_⟩
  · rw [Function.iterate_succ_apply, Function.iterate_fixed hfix]
  · rw [get_value_class, hcur']
    simp

theorem C8_legacy_config_normalized_witness :
    alookup [("prometheus_multiproc_dir", "tmp")] "prometheus_multiproc_dir" = some "tmp" ∧
    alookup [("prometheus_multiproc_dir", "tmp")] "PROMETHEUS_MULTIPROC_DIR" = none ∧
    (alookup (deprecationCheck { env := [("prometheus_multiproc_dir", "tmp")], warnCount := 0 }).env
        "PROMETHEUS_MULTIPROC_DIR" = some "tmp" ∧
      (deprecationCheck { env := [("prometheus_multiproc_dir", "tmp")], warnCount := 0 }).warnCount = 0 + 1 ∧
      deprecationCheck^[2 + 1] { env := [("prometheus_multiproc_dir", "tmp")], warnCount := 0 }
        = deprecationCheck { env := [("prometheus_multiproc_dir", "tmp")], warnCount := 0 } ∧
      get_value_class (deprecationCheck { env := [("prometheus_multiproc_dir", "tmp")], warnCount := 0 }).env
        = BackendKind.mmapedValue) :=
  ⟨by decide, by decide,
    C8_legacy_config_normalized { env := [("prometheus_multiproc_dir", "tmp")], warnCount := 0 }
      "tmp" 2 (by decide) (by decide)⟩

/-! ### The concrete counter scenario of spec §8 -/

/-- Metric type `counter`, metric name `requests_total`, sample name
`requests_total`, no labels, default (empty) multiprocess mode. -/
def counterParams : Params :=
  { typ := "counter", metric_name := "requests_total", name := "requests_total",
    labelnames := [], labelvalues := [], multiprocess_mode := "" }

/-- The storage key the scenario's instances derive. -/
def counterKey : String :=
  mmap_key "requests_total" "requests_total" [] []

/-- A fresh factory state whose identity probe returned `100` at build time. -/
def scenarioStart : MPState :=
  { files := [], values := [], pid := 100 }

/-- The scenario state after constructing one Shared Scalar (probe still 100,
directory `tmp`). -/
def scenario1 : MPState :=
  MmapedValue.init "tmp" 100 counterParams scenarioStart

def scenarioInc1 : MPState := MmapedValue.inc "tmp" 100 0 1 scenario1

def scenarioInc2 : MPState := MmapedValue.inc "tmp" 100 0 1 scenarioInc1

def scenarioInc3 : MPState := MmapedValue.inc "tmp" 100 0 1 scenarioInc2

/-- C4: in the counter scenario (type `counter`, metric `requests_total`, no
labels, identity probe constantly 100), construction opens the store backed by
`tmp/counter_100.db` (a path ending in `counter_100.db`); three sequential
`inc(1.0)` calls from an unseen key make `get()` return `3.0` and leave `3.0`
in the store under the instance's key; moreover after each of the three
completed `inc` calls the store value under the instance's key equals the
instance's cached value. -/
theorem C4_counter_scenario :
    (scenario1.files.map fun e => e.2.filename) = ["tmp/" ++ "counter_100.db"] ∧
    readStore scenario1.files "counter" counterKey = 0 ∧
    (MmapedValue.get "tmp" 100 0 scenarioInc3).1 = 3 ∧
    readStore scenarioInc3.files "counter" counterKey = 3 ∧
    readStore scenarioInc1.files "counter" counterKey = (MmapedValue.get "tmp" 100 0 scenarioInc1).1 ∧
    readStore scenarioInc2.files "counter" counterKey = (MmapedValue.get "tmp" 100 0 scenarioInc2).1 ∧
    readStore scenarioInc3.files "counter" counterKey = (MmapedValue.get "tmp" 100 0 scenarioInc3).1 := by
  with_unfolding_all decide

/-! ### C1: two instances with the same identity tuple -/

/-- The scenario state after constructing a second Shared Scalar with the same
identity tuple and mode from the same factory (probe still 100). -/
def twoInstState : MPState :=
  MmapedValue.init "tmp" 100 counterParams scenario1

/-- `twoInstState` after `inc(1.0)` through the first instance (index 0). -/
def twoInstAfterInc : MPState :=
  MmapedValue.inc "tmp" 100 0 1 twoInstState

/-- C1 fails on the code: both instances derive the same storage key and the
same store handle, and a write of `1.0` through the first instance completes
(the first instance's `get()` and the store both hold `1.0`), yet `get()` on
the second instance still returns its cached `0.0`, not the written value —
`MmapedValue.get` returns `self._value` without re-reading the store when the
identity is unchanged. -/
theorem C1_counterexample :
    (twoInstState.values.map Inst.key) = [counterKey, counterKey] ∧
    (twoInstState.values.map Inst.file) = ["counter", "counter"] ∧
    (MmapedValue.get "tmp" 100 0 twoInstAfterInc).1 = 1 ∧
    readStore twoInstAfterInc.files "counter" counterKey = 1 ∧
    (MmapedValue.get "tmp" 100 1 twoInstAfterInc).1 = 0 ∧
    ((0 : Rat) = 1 → False) := by
  with_unfolding_all decide

/-- C1 amended: two Shared Scalar instances built from the same factory with
the same identity tuple and aggregation mode, in the same process with the
identity unchanged, derive the same storage key and attach to the same store;
after an `inc` through the first completes, the shared store under that key
and the writer's `get()` hold the written value, while `get()` on the other
instance returns the value it cached at its own construction (it does not
observe the write until a resynchronization). -/
theorem C1_amended_same_key_same_store (dir : String) (pid : Int) (p : Params)
    (s : MPState) (a : Rat) (hpid : s.pid = pid) :
    ((MmapedValue.init dir pid p (MmapedValue.init dir pid p s)).values.getD
        s.values.length default).key
      = ((MmapedValue.init dir pid p (MmapedValue.init dir pid p s)).values.getD
          (s.values.length + 1) default).key ∧
    ((MmapedValue.init dir pid p (MmapedValue.init dir pid p s)).values.getD
        s.values.length default).file
      = ((MmapedValue.init dir pid p (MmapedValue.init dir pid p s)).values.getD
          (s.values.length + 1) default).file ∧
    readStore
        (MmapedValue.inc dir pid s.values.length a
          (MmapedValue.init dir pid p (MmapedValue.init dir pid p s))).files
        (filePrefixOf p) (mmap_key p.metric_name p.name p.labelnames p.labelvalues)
      = ((MmapedValue.init dir pid p (MmapedValue.init dir pid p s)).values.getD
          s.values.length default).value + a ∧
    (MmapedValue.get dir pid s.values.length
        (MmapedValue.inc dir pid s.values.length a
          (MmapedValue.init dir pid p (MmapedValue.init dir pid p s)))).1
      = ((MmapedValue.init dir pid p (MmapedValue.init dir pid p s)).values.getD
          s.values.length default).value + a ∧
    (MmapedValue.get dir pid (s.values.length + 1)
        (MmapedValue.inc dir pid s.values.length a
          (MmapedValue.init dir pid p (MmapedValue.init dir pid p s)))).1
      = ((MmapedValue.init dir pid p (MmapedValue.init dir pid p s)).values.getD
          (s.values.length + 1) default).value := by
  obtain ⟨d₁, hd₁⟩ : ∃ d, alookup (resetInst dir pid s.files p).1 (filePrefixOf p) = some d := by
    rw [alookup_resetInst_self]
    cases alookup s.files (filePrefixOf p) <;> exact ⟨_, rfl⟩
  have hfst2 : (resetInst dir pid (resetInst dir pid s.files p).1 p).1
      = (resetInst dir pid s.files p).1 := by
    rw [resetInst]
    simp only [hd₁]
  have hsnd2 : (resetInst dir pid (resetInst dir pid s.files p).1 p).2
      = { params := p, file := filePrefixOf p,
          key := mmap_key p.metric_name p.name p.labelnames p.labelvalues,
          value := d₁.read_value (mmap_key p.metric_name p.name p.labelnames p.labelvalues) } := by
    rw [resetInst_snd, hfst2]
    rw [readStore, hd₁]
  have hs2 : MmapedValue.init dir pid p (MmapedValue.init dir pid p s)
      = { files := (resetInst dir pid s.files p).1,
          values := s.values ++ [(resetInst dir pid s.files p).2,
            { params := p, file := filePrefixOf p,
              key := mmap_key p.metric_name p.name p.labelnames p.labelvalues,
              value := d₁.read_value (mmap_key p.metric_name p.name p.labelnames p.labelvalues) }],
          pid := pid } := by
    rw [MmapedValue.init_unfold dir pid p s hpid,
        MmapedValue.init_unfold dir pid p _ rfl]
    simp [hfst2, hsnd2]
  rw [hs2]
  have hi1key : (resetInst dir pid s.files p).2.key
      = mmap_key p.metric_name p.name p.labelnames p.labelvalues := by
    rw [resetInst_snd]
  have hi1file : (resetInst dir pid s.files p).2.file = filePrefixOf p := by
    rw [resetInst_snd]
  have hi1val : (resetInst dir pid s.files p).2.value
      = d₁.read_value (mmap_key p.metric_name p.name p.labelnames p.labelvalues) := by
    rw [resetInst_snd]
    rw [readStore, hd₁]
  have hidx1 : (s.values ++ [(resetInst dir pid s.files p).2,
      { params := p, file := filePrefixOf p,
        key := mmap_key p.metric_name p.name p.labelnames p.labelvalues,
        value := d₁.read_value (mmap_key p.metric_name p.name p.labelnames p.labelvalues) }
      ])[s.values.length]? = some (resetInst dir pid s.files p).2 := by
    rw [List.getElem?_append]
    simp
  have hidx2 : (s.values ++ [(resetInst dir pid s.files p).2,
      { params := p, file := filePrefixOf p,
        key := mmap_key p.metric_name p.name p.labelnames p.labelvalues,
        value := d₁.read_value (mmap_key p.metric_name p.name p.labelnames p.labelvalues) }
      ])[s.values.length + 1]? = some
      { params := p, file := filePrefixOf p,
        key := mmap_key p.metric_name p.name p.labelnames p.labelvalues,
        value := d₁.read_value (mmap_key p.metric_name p.name p.labelnames p.labelvalues) } := by
    rw [List.getElem?_append]
    simp
  have hinc := MmapedValue.inc_unfold dir pid s.values.length a
      { files := (resetInst dir pid s.files p).1,
        values := s.values ++ [(resetInst dir pid s.files p).2,
          { params := p, file := filePrefixOf p,
            key := mmap_key p.metric_name p.name p.labelnames p.labelvalues,
            value := d₁.read_value (mmap_key p.metric_name p.name p.labelnames p.labelvalues) }],
        pid := pid } rfl (resetInst dir pid s.files p).2 (by simpa using hidx1)
  rw [hinc]
  refine ⟨?_, ?_, ?_, ?_, ?_⟩
  · simp [List.getD_eq_getElem?_getD, hidx1, hidx2, hi1key]
  · simp [List.getD_eq_getElem?_getD, hidx1, hidx2, hi1file]
  · rw [readStore, hi1file, hi1key, alookup_writeThrough_self, hd₁]
    simp [List.getD_eq_getElem?_getD, hidx1, hi1val]
  · rw [MmapedValue.get]
    simp [checkForPidChange, getElem?_append_pair_left, getElem_append_pair_left,
      List.getD_eq_getElem?_getD, hidx1]
  · rw [MmapedValue.get]
    simp [checkForPidChange, getElem?_append_pair_right, getElem_append_pair_right,
      List.getD_eq_getElem?_getD, hidx2]

theorem C1_amended_same_key_same_store_witness :
    scenarioStart.pid = 100 ∧
    (((MmapedValue.init "tmp" 100 counterParams
          (MmapedValue.init "tmp" 100 counterParams scenarioStart)).values.getD
        scenarioStart.values.length default).key
      = ((MmapedValue.init "tmp" 100 counterParams
            (MmapedValue.init "tmp" 100 counterParams scenarioStart)).values.getD
          (scenarioStart.values.length + 1) default).key ∧
    ((MmapedValue.init "tmp" 100 counterParams
          (MmapedValue.init "tmp" 100 counterParams scenarioStart)).values.getD
        scenarioStart.values.length default).file
      = ((MmapedValue.init "tmp" 100 counterParams
            (MmapedValue.init "tmp" 100 counterParams scenarioStart)).values.getD
          (scenarioStart.values.length + 1) default).file ∧
    readStore
        (MmapedValue.inc "tmp" 100 scenarioStart.values.length 1
          (MmapedValue.init "tmp" 100 counterParams
            (MmapedValue.init "tmp" 100 counterParams scenarioStart))).files
        (filePrefixOf counterParams)
        (mmap_key counterParams.metric_name counterParams.name
          counterParams.labelnames counterParams.labelvalues)
      = ((MmapedValue.init "tmp" 100 counterParams
            (MmapedValue.init "tmp" 100 counterParams scenarioStart)).values.getD
          scenarioStart.values.length default).value + 1 ∧
    (MmapedValue.get "tmp" 100 scenarioStart.values.length
        (MmapedValue.inc "tmp" 100 scenarioStart.values.length 1
          (MmapedValue.init "tmp" 100 counterParams
            (MmapedValue.init "tmp" 100 counterParams scenarioStart)))).1
      = ((MmapedValue.init "tmp" 100 counterParams
            (MmapedValue.init "tmp" 100 counterParams scenarioStart)).values.getD
          scenarioStart.values.length default).value + 1 ∧
    (MmapedValue.get "tmp" 100 (scenarioStart.values.length + 1)
        (MmapedValue.inc "tmp" 100 scenarioStart.values.length 1
          (MmapedValue.init "tmp" 100 counterParams
            (MmapedValue.init "tmp" 100 counterParams scenarioStart)))).1
      = ((MmapedValue.init "tmp" 100 counterParams
            (MmapedValue.init "tmp" 100 counterParams scenarioStart)).values.getD
          (scenarioStart.values.length + 1) default).value) :=
  ⟨rfl, C1_amended_same_key_same_store "tmp" 100 counterParams scenarioStart 1 rfl⟩

@[simp]
theorem write_value_filename (d : MmapedDict) (k : String) (v : Rat) :
    (d.write_value k v).filename = d.filename := rfl

/-- C9: in the shared backend, `inc`/`set` update the cached float before the
store write and perform no rollback: at the moment a failing store write
raises, the instance's cached value already holds the post-operation value
while the store is untouched, so cache and store are inconsistent whenever
the operation actually changed the value. -/
theorem C9_cache_updated_before_failing_write (dir : String) (pid : Int) (i : Nat)
    (a w : Rat) (s : MPState) (inst : Inst)
    (hpid : s.pid = pid) (hi : s.values[i]? = some inst) :
    (MmapedValue.incStoreWriteFails dir pid i a s).files = s.files ∧
    (MmapedValue.incStoreWriteFails dir pid i a s).values[i]?
      = some { inst with value := inst.value + a } ∧
    (a ≠ 0 → inst.value = readStore s.files inst.file inst.key →
      inst.value + a
        ≠ readStore (MmapedValue.incStoreWriteFails dir pid i a s).files inst.file inst.key) ∧
    (MmapedValue.setStoreWriteFails dir pid i w s).files = s.files ∧
    (MmapedValue.setStoreWriteFails dir pid i w s).values[i]? = some { inst with value := w } ∧
    (w ≠ readStore s.files inst.file inst.key →
      w ≠ readStore (MmapedValue.setStoreWriteFails dir pid i w s).files inst.file inst.key) := by
  have hlt : i < s.values.length := (List.getElem?_eq_some.mp hi).1
  have hinc : MmapedValue.incStoreWriteFails dir pid i a s
      = { s with values := s.values.set i { inst with value := inst.value + a } } := by
    rw [MmapedValue.incStoreWriteFails, checkForPidChange_eq_self _ _ _ hpid, hi]
  have hset : MmapedValue.setStoreWriteFails dir pid i w s
      = { s with values := s.values.set i { inst with value := w } } := by
    rw [MmapedValue.setStoreWriteFails, checkForPidChange_eq_self _ _ _ hpid, hi]
  refine ⟨by rw [hinc], ?_, ?_, by rw [hset], ?_, ?_⟩
  · rw [hinc]
    simp [List.getElem?_set_self, hlt]
  · intro ha hcons
    rw [hinc]
    intro hc
    rw [← hcons] at hc
    exact ha (by linarith)
  · rw [hset]
    simp [List.getElem?_set_self, hlt]
  · intro hw
    rw [hset]
    exact hw

theorem C9_cache_updated_before_failing_write_witness :
    scenario1.pid = 100 ∧
    scenario1.values[0]?
      = some { params := counterParams, file := "counter", key := counterKey, value := 0 } ∧
    ((MmapedValue.incStoreWriteFails "tmp" 100 0 1 scenario1).files = scenario1.files ∧
      (MmapedValue.incStoreWriteFails "tmp" 100 0 1 scenario1).values[0]?
        = some ({ params := counterParams,
                  file := "counter",
                  key := counterKey,
                  value :=
                    ({ params := counterParams, file := "counter", key := counterKey,
                       value := (0 : Rat) } : Inst).value + 1 } : Inst) ∧
      ((1 : Rat) ≠ 0 →
        ({ params := counterParams, file := "counter", key := counterKey,
            value := (0 : Rat) } : Inst).value = readStore scenario1.files "counter" counterKey →
        ({ params := counterParams, file := "counter", key := counterKey,
            value := (0 : Rat) } : Inst).value + 1
          ≠ readStore (MmapedValue.incStoreWriteFails "tmp" 100 0 1 scenario1).files
              "counter" counterKey) ∧
      (MmapedValue.setStoreWriteFails "tmp" 100 0 5 scenario1).files = scenario1.files ∧
      (MmapedValue.setStoreWriteFails "tmp" 100 0 5 scenario1).values[0]?
        = some ({ params := counterParams,
                  file := "counter",
                  key := counterKey,
                  value := (5 : Rat) } : Inst) ∧
      ((5 : Rat) ≠ readStore scenario1.files "counter" counterKey →
        (5 : Rat) ≠ readStore (MmapedValue.setStoreWriteFails "tmp" 100 0 5 scenario1).files
            "counter" counterKey)) :=
  ⟨rfl, by with_unfolding_all decide,
    C9_cache_updated_before_failing_write "tmp" 100 0 1 5 scenario1
      { params := counterParams, file := "counter", key := counterKey, value := 0 }
      rfl (by with_unfolding_all decide)⟩

/-- The frame of a completed write operation: relative to the pre-state, only
the instance at index `i` (whose cached float becomes `newv`) and the store
entry under that instance's key change; the cached identity, the registry,
every other instance, every other store, and the rest of the instance's own
store are untouched. -/
def onlyTouches (s sNew : MPState) (i : Nat) (inst : Inst) (newv : Rat) : Prop :=
  sNew.pid = s.pid ∧
  sNew.values.length = s.values.length ∧
  (∀ j, j ≠ i → sNew.values[j]? = s.values[j]?) ∧
  sNew.values[i]? = some { inst with value := newv } ∧
  (∀ fp, fp ≠ inst.file → alookup sNew.files fp = alookup s.files fp) ∧
  ((alookup sNew.files inst.file).map MmapedDict.filename
     = (alookup s.files inst.file).map MmapedDict.filename) ∧
  (∀ k, k ≠ inst.key → readStore sNew.files inst.file k = readStore s.files inst.file k)

theorem onlyTouches_write_state (s : MPState) (i : Nat) (inst : Inst) (v : Rat)
    (hi : s.values[i]? = some inst) :
    onlyTouches s
      { s with values := s.values.set i { inst with value := v },
               files := writeThrough s.files inst.file inst.key v } i inst v := by
  have hlt : i < s.values.length := (List.getElem?_eq_some.mp hi).1
  refine ⟨rfl, by simp, ?_, ?_, ?_, ?_, ?_⟩
  · intro j hj
    exact List.getElem?_set_ne (fun hc => hj hc.symm)
  · simp [List.getElem?_set_self, hlt]
  · intro fp hfp
    exact alookup_writeThrough_ne s.files inst.file fp inst.key v hfp
  · rw [alookup_writeThrough_self]
    cases h : alookup s.files inst.file <;> simp
  · intro k hk
    rw [readStore, readStore, alookup_writeThrough_self]
    cases h : alookup s.files inst.file with
    | none => rfl
    | some d => simpa using read_value_write_value_ne d inst.key k v hk

/-- C10: when `inc` or `set` runs with the identity probe equal to the cached
identity, the only state changed is the target instance's cached float and the
store entry under that instance's key: the cached identity, the instance
registry, every other instance's cached float, every other registered store,
and every other key of the instance's own store are left unchanged. -/
theorem C10_write_frame (dir : String) (pid : Int) (i : Nat) (a w : Rat)
    (s : MPState) (inst : Inst) (hpid : s.pid = pid) (hi : s.values[i]? = some inst) :
    onlyTouches s (MmapedValue.inc dir pid i a s) i inst (inst.value + a) ∧
    onlyTouches s (MmapedValue.set dir pid i w s) i inst w := by
  constructor
  · rw [MmapedValue.inc_unfold dir pid i a s hpid inst hi]
    exact onlyTouches_write_state s i inst (inst.value + a) hi
  · rw [MmapedValue.set_unfold dir pid i w s hpid inst hi]
    exact onlyTouches_write_state s i inst w hi

theorem C10_write_frame_witness :
    scenario1.pid = 100 ∧
    scenario1.values[0]?
      = some { params := counterParams, file := "counter", key := counterKey, value := 0 } ∧
    (onlyTouches scenario1 (MmapedValue.inc "tmp" 100 0 1 scenario1) 0
        { params := counterParams, file := "counter", key := counterKey, value := 0 }
        (({ params := counterParams, file := "counter", key := counterKey,
            value := (0 : Rat) } : Inst).value + 1) ∧
      onlyTouches scenario1 (MmapedValue.set "tmp" 100 0 5 scenario1) 0
        { params := counterParams, file := "counter", key := counterKey, value := 0 } 5) :=
  ⟨rfl, by with_unfolding_all decide,
    C10_write_frame "tmp" 100 0 1 5 scenario1
      { params := counterParams, file := "counter", key := counterKey, value := 0 }
      rfl (by with_unfolding_all decide)⟩

/-! ### C2: the identity-change protocol -/

theorem resync_foldl_spec (dir : String) (insts : List Inst) (acc : MPState)
    (h1 : ∀ e ∈ acc.files, e.2.filename = mkFilename dir e.1 acc.pid ∧ e.2.data = [])
    (h2 : ∀ v ∈ acc.values, attached acc.files v) :
    (insts.foldl (resyncStep dir) acc).values.map Inst.params
      = acc.values.map Inst.params ++ insts.map Inst.params ∧
    (∀ e ∈ (insts.foldl (resyncStep dir) acc).files,
        e.2.filename = mkFilename dir e.1 acc.pid ∧ e.2.data = []) ∧
    (∀ v ∈ (insts.foldl (resyncStep dir) acc).values,
        attached (insts.foldl (resyncStep dir) acc).files v) := by
  induction insts generalizing acc with
  | nil => exact ⟨by simp, h1, h2⟩
  | cons hd tl ih =>
      rw [List.foldl_cons]
      have h1' : ∀ e ∈ (resyncStep dir acc hd).files,
          e.2.filename = mkFilename dir e.1 (resyncStep dir acc hd).pid ∧ e.2.data = [] := by
        intro e he
        rcases resetInst_mem_files dir acc.pid acc.files hd.params e he with h | h
        · exact h1 e h
        · subst h
          exact ⟨rfl, rfl⟩
      have h2' : ∀ v ∈ (resyncStep dir acc hd).values,
          attached (resyncStep dir acc hd).files v := by
        intro v hv
        rcases List.mem_append.mp hv with h | h
        · exact attached_resetInst_preserve dir acc.pid acc.files hd.params v (h2 v h)
        · simp only [List.mem_singleton] at h
          subst h
          exact attached_resetInst_self dir acc.pid acc.files hd.params
      obtain ⟨hmap, hfiles, hvals⟩ := ih (resyncStep dir acc hd) h1' h2'
      have hparams : (resetInst dir acc.pid acc.files hd.params).2.params = hd.params := by
        rw [resetInst_snd]
      refine ⟨?_, hfiles, hvals⟩
      rw [hmap]
      show (acc.values ++ [(resetInst dir acc.pid acc.files hd.params).2]).map Inst.params
          ++ tl.map Inst.params = _
      simp [hparams]

/-- C2: every operation of the shared backend (construction, `inc`, `set`,
`get`) first runs the identity-change check; when the probe differs from the
cached identity the check updates the cached identity, clears the store
mapping (the dropped stores are closed; closing has no further observable
effect here) and rebuilds it with stores freshly opened under file names
carrying the new identity, and re-attaches every registered instance — same
identity tuple, handle and key re-derived, cached float reloaded from the
fresh store (hence `0`) — before the operation proceeds; when the probe
matches, the check changes nothing.  During construction the check runs
before the new instance is appended to the registry, so the append happens to
the already-resynchronized registry. -/
theorem C2_identity_change_protocol (dir : String) (actual : Int) (s : MPState)
    (p : Params) :
    (s.pid = actual → checkForPidChange dir actual s = s) ∧
    (s.pid ≠ actual →
      (checkForPidChange dir actual s).pid = actual ∧
      (checkForPidChange dir actual s).values.map Inst.params = s.values.map Inst.params ∧
      (∀ e ∈ (checkForPidChange dir actual s).files,
          e.2.filename = mkFilename dir e.1 actual ∧ e.2.data = []) ∧
      (∀ v ∈ (checkForPidChange dir actual s).values,
          attached (checkForPidChange dir actual s).files v ∧ v.value = 0)) ∧
    (MmapedValue.init dir actual p s).values
      = (checkForPidChange dir actual s).values
          ++ [(resetInst dir actual (checkForPidChange dir actual s).files p).2] ∧
    (∀ i, (MmapedValue.get dir actual i s).2 = checkForPidChange dir actual s) ∧
    (∀ i a, MmapedValue.inc dir actual i a s
        = MmapedValue.inc dir actual i a (checkForPidChange dir actual s)) ∧
    (∀ i w, MmapedValue.set dir actual i w s
        = MmapedValue.set dir actual i w (checkForPidChange dir actual s)) ∧
    MmapedValue.init dir actual p s
      = MmapedValue.init dir actual p (checkForPidChange dir actual s) := by
  refine ⟨checkForPidChange_eq_self dir actual s, ?_, ?_, ?_, ?_, ?_, ?_⟩
  · intro hne
    have hunfold : checkForPidChange dir actual s
        = s.values.foldl (resyncStep dir) { files := [], values := [], pid := actual } := by
      rw [checkForPidChange, if_pos hne]
    obtain ⟨hmap, hfiles, hvals⟩ :=
      resync_foldl_spec dir s.values { files := [], values := [], pid := actual }
        (by intro e he; simp at he) (by intro v hv; simp at hv)
    refine ⟨checkForPidChange_pid dir actual s, ?_, ?_, ?_⟩
    · rw [hunfold, hmap]
      simp
    · rw [hunfold]
      exact hfiles
    · intro v hv
      rw [hunfold] at hv
      have hatt := hvals v hv
      refine ⟨by rw [hunfold]; exact hatt, ?_⟩
      obtain ⟨hfile, hkey, hsome, hval⟩ := hatt
      obtain ⟨d, hd⟩ := Option.isSome_iff_exists.mp hsome
      have hdmem := alookup_mem hd
      have hdfresh := (hfiles _ hdmem).2
      rw [hval, readStore, hd]
      simp only [MmapedDict.read_value]
      have hdata : d.data = [] := hdfresh
      rw [hdata]
      rfl
  · rw [MmapedValue.init, checkForPidChange_pid]
  · intro i
    rfl
  · intro i a
    simp only [MmapedValue.inc, checkForPidChange_idem]
  · intro i w
    simp only [MmapedValue.set, checkForPidChange_idem]
  · simp only [MmapedValue.init, checkForPidChange_idem]

theorem C2_identity_change_protocol_witness :
    scenario1.pid ≠ 200 ∧
    ((checkForPidChange "tmp" 200 scenario1).pid = 200 ∧
      (checkForPidChange "tmp" 200 scenario1).values.map Inst.params
        = scenario1.values.map Inst.params ∧
      (∀ e ∈ (checkForPidChange "tmp" 200 scenario1).files,
          e.2.filename = mkFilename "tmp" e.1 200 ∧ e.2.data = []) ∧
      (∀ v ∈ (checkForPidChange "tmp" 200 scenario1).values,
          attached (checkForPidChange "tmp" 200 scenario1).files v ∧ v.value = 0)) :=
  ⟨by with_unfolding_all decide,
    (C2_identity_change_protocol "tmp" 200 scenario1 counterParams).2.1
      (by with_unfolding_all decide)⟩

/-! ### C5: backing file naming -/

theorem string_eq_of_data_eq (s t : String) (h : s.data = t.data) : s = t := by
  cases s
  cases t
  simp_all

theorem mkFilename_fp_inj (dir : String) (pid : Int) (fp₁ fp₂ : String)
    (h : mkFilename dir fp₁ pid = mkFilename dir fp₂ pid) : fp₁ = fp₂ := by
  have hd : (mkFilename dir fp₁ pid).data = (mkFilename dir fp₂ pid).data := by rw [h]
  rw [mkFilename, mkFilename] at hd
  simp only [String.data_append] at hd
  have h1 := List.append_cancel_right hd
  have h2 := List.append_cancel_right h1
  have h3 := List.append_cancel_right h2
  have h4 := List.append_cancel_left h3
  exact string_eq_of_data_eq _ _ h4

theorem filePrefixOf_gauge_inj (p q : Params) (hp : p.typ = "gauge") (hq : q.typ = "gauge")
    (hm : p.multiprocess_mode ≠ q.multiprocess_mode) :
    filePrefixOf p ≠ filePrefixOf q := by
  rw [filePrefixOf, filePrefixOf, if_pos hp, if_pos hq, hp, hq]
  intro hc
  apply hm
  have hd : ("gauge" ++ "_" ++ p.multiprocess_mode).data
      = ("gauge" ++ "_" ++ q.multiprocess_mode).data := by rw [hc]
  simp only [String.data_append] at hd
  have h1 := List.append_cancel_left hd
  exact string_eq_of_data_eq _ _ h1

/-- C5: a Shared Scalar attaches to a backing file named
`{file_prefix}_{process_identity}.db` inside the configured directory, where
the file prefix is the metric type name for every non-gauge type and
`"gauge_" + mode` for gauges; in particular gauge instances with different
aggregation modes but otherwise identical identity tuples attach to files
with different prefixes, hence different backing files. -/
theorem C5_backing_file_naming (dir : String) (pid : Int) (s : MPState) (p q : Params)
    (hpid : s.pid = pid) (hnew : alookup s.files (filePrefixOf p) = none) :
    (p.typ ≠ "gauge" → filePrefixOf p = p.typ) ∧
    (p.typ = "gauge" → filePrefixOf p = "gauge_" ++ p.multiprocess_mode) ∧
    ((alookup (MmapedValue.init dir pid p s).files (filePrefixOf p)).map MmapedDict.filename
       = some (dir ++ "/" ++ filePrefixOf p ++ "_" ++ toString pid ++ ".db")) ∧
    (p.typ = "gauge" → q.typ = "gauge" → p.multiprocess_mode ≠ q.multiprocess_mode →
       filePrefixOf p ≠ filePrefixOf q ∧
       mkFilename dir (filePrefixOf p) pid ≠ mkFilename dir (filePrefixOf q) pid) := by
  refine ⟨?_, ?_, ?_, ?_⟩
  · intro h
    rw [filePrefixOf, if_neg h]
  · intro hp
    rw [filePrefixOf, if_pos hp, hp]
    rfl
  · rw [MmapedValue.init_unfold dir pid p s hpid]
    show (alookup (resetInst dir pid s.files p).1 (filePrefixOf p)).map MmapedDict.filename = _
    rw [alookup_resetInst_self, hnew]
    rfl
  · intro hp hq hm
    have hfp := filePrefixOf_gauge_inj p q hp hq hm
    exact ⟨hfp, fun hc => hfp (mkFilename_fp_inj dir pid _ _ hc)⟩

theorem C5_backing_file_naming_witness :
    scenarioStart.pid = 100 ∧
    alookup scenarioStart.files
        (filePrefixOf { typ := "gauge", metric_name := "g", name := "g",
                        labelnames := [], labelvalues := [], multiprocess_mode := "max" })
      = none ∧
    ((({ typ := "gauge", metric_name := "g", name := "g", labelnames := [],
         labelvalues := [], multiprocess_mode := "max" } : Params).typ ≠ "gauge" →
        filePrefixOf { typ := "gauge", metric_name := "g", name := "g", labelnames := [],
                       labelvalues := [], multiprocess_mode := "max" }
          = ({ typ := "gauge", metric_name := "g", name := "g", labelnames := [],
               labelvalues := [], multiprocess_mode := "max" } : Params).typ) ∧
      (({ typ := "gauge", metric_name := "g", name := "g", labelnames := [],
          labelvalues := [], multiprocess_mode := "max" } : Params).typ = "gauge" →
        filePrefixOf { typ := "gauge", metric_name := "g", name := "g", labelnames := [],
                       labelvalues := [], multiprocess_mode := "max" }
          = "gauge_" ++ ({ typ := "gauge", metric_name := "g", name := "g", labelnames := [],
                           labelvalues := [], multiprocess_mode := "max" } : Params).multiprocess_mode) ∧
      ((alookup (MmapedValue.init "tmp" 100
            { typ := "gauge", metric_name := "g", name := "g", labelnames := [],
              labelvalues := [], multiprocess_mode := "max" } scenarioStart).files
          (filePrefixOf { typ := "gauge", metric_name := "g", name := "g", labelnames := [],
                          labelvalues := [], multiprocess_mode := "max" })).map MmapedDict.filename
        = some ("tmp" ++ "/" ++ filePrefixOf
              { typ := "gauge", metric_name := "g", name := "g", labelnames := [],
                labelvalues := [], multiprocess_mode := "max" }
            ++ "_" ++ toString (100 : Int) ++ ".db")) ∧
      (({ typ := "gauge", metric_name := "g", name := "g", labelnames := [],
          labelvalues := [], multiprocess_mode := "max" } : Params).typ = "gauge" →
        ({ typ := "gauge", metric_name := "g", name := "g", labelnames := [],
           labelvalues := [], multiprocess_mode := "min" } : Params).typ = "gauge" →
        ({ typ := "gauge", metric_name := "g", name := "g", labelnames := [],
           labelvalues := [], multiprocess_mode := "max" } : Params).multiprocess_mode
          ≠ ({ typ := "gauge", metric_name := "g", name := "g", labelnames := [],
               labelvalues := [], multiprocess_mode := "min" } : Params).multiprocess_mode →
        filePrefixOf { typ := "gauge", metric_name := "g", name := "g", labelnames := [],
                       labelvalues := [], multiprocess_mode := "max" }
          ≠ filePrefixOf { typ := "gauge", metric_name := "g", name := "g", labelnames := [],
                           labelvalues := [], multiprocess_mode := "min" } ∧
        mkFilename "tmp" (filePrefixOf
              { typ := "gauge", metric_name := "g", name := "g", labelnames := [],
                labelvalues := [], multiprocess_mode := "max" }) 100
          ≠ mkFilename "tmp" (filePrefixOf
              { typ := "gauge", metric_name := "g", name := "g", labelnames := [],
                labelvalues := [], multiprocess_mode := "min" }) 100)) :=
  ⟨rfl, rfl,
    C5_backing_file_naming "tmp" 100 scenarioStart
      { typ := "gauge", metric_name := "g", name := "g", labelnames := [],
        labelvalues := [], multiprocess_mode := "max" }
      { typ := "gauge", metric_name := "g", name := "g", labelnames := [],
        labelvalues := [], multiprocess_mode := "min" }
      rfl rfl⟩
